import Mathlib

/-!
Shallow embedding of the dcap-qvl CLI (`src/cli/src/main.rs`): input
normalization (`hex_decode`), collateral-source selection and retrieval,
verification invocation and reporting, and the dispatcher in `main`.
External collaborators (file system, environment, network retrieval, the
quote parser and the cryptographic verifier) are modelled as oracle
fields of a world record; each command function returns the list of
observable effects it performs together with its `Result`.
-/

namespace DcapQvl

/-- Byte strings are lists of `Nat` values; file contents and quote bytes
have every element below 256. -/
abbrev Bytes := List Nat

/-- Error type of the `hex` crate's `decode`: `OddLength` when the input
has odd length, `InvalidHexCharacter` when a byte is not a hex digit. -/
inductive DecodeErr where
  | oddLength
  | invalidChar
deriving DecidableEq, Repr

/-- Value of a hex-digit byte per the `hex` crate: `0-9`, `a-f`, `A-F`. -/
def hexDigitVal (b : Nat) : Option Nat :=
  if 48 ≤ b ∧ b ≤ 57 then some (b - 48)
  else if 97 ≤ b ∧ b ≤ 102 then some (b - 87)
  else if 65 ≤ b ∧ b ≤ 70 then some (b - 55)
  else none

/-- Decode consecutive pairs of hex-digit bytes; called on even-length
input only (a leftover single byte is reported as `oddLength`). -/
def hexPairs : Bytes → Except DecodeErr Bytes
  | [] => .ok []
  | [_] => .error .oddLength
  | a :: b :: rest =>
    match hexDigitVal a, hexDigitVal b with
    | some hi, some lo =>
      match hexPairs rest with
      | .ok tl => .ok ((hi * 16 + lo) :: tl)
      | .error e => .error e
    | _, _ => .error .invalidChar

/-- `hex::decode`: fails with `oddLength` on odd-length input, otherwise
decodes hex-digit pairs into bytes. -/
def hexDecode (l : Bytes) : Except DecodeErr Bytes :=
  if l.length % 2 = 1 then .error .oddLength else hexPairs l

/-- Lowercase hex digit byte for a value below 16, as produced by
`hex::encode`. -/
def hexDigitChar (n : Nat) : Nat :=
  if n < 10 then 48 + n else 87 + n

/-- `hex::encode` restricted to byte values: two lowercase hex digit
bytes per input byte. -/
def hexEncode : Bytes → Bytes
  | [] => []
  | b :: rest => hexDigitChar (b / 16) :: hexDigitChar (b % 16) :: hexEncode rest

/-- `input.strip_prefix(b"0x").unwrap_or(input)`: drop one leading
`"0x"` (bytes 48, 120) when present. -/
def strip0x (l : Bytes) : Bytes :=
  match l with
  | 48 :: 120 :: rest => rest
  | _ => l

/-- `input.strip_suffix(b"\n").unwrap_or(input)`: drop one trailing
newline byte (10) when present. -/
def stripNl (l : Bytes) : Bytes :=
  if l.getLast? = some 10 then l.dropLast else l

/-- `hex_decode` from the CLI: with `is_hex` set, strip one `"0x"` then
one trailing newline and hex-decode the remainder; otherwise return the
input unchanged. -/
def hex_decode (input : Bytes) (isHex : Bool) : Except DecodeErr Bytes :=
  if isHex then hexDecode (stripNl (strip0x input)) else .ok input

/-- Error of a collateral retrieval attempt: network failure, timeout
expiry, or a malformed/absent response. -/
inductive RetrievalErr where
  | timeout
  | network
  | badResponse
deriving DecidableEq, Repr

/-- Root cause of a failed command step. -/
inductive BaseErr where
  | readFailed
  | hexDecodeFailed (e : DecodeErr)
  | parseFailed
  | serializeFailed
  | retrievalFailed (r : RetrievalErr)
  | sysTimeFailed
  | noVerifyResult
deriving DecidableEq, Repr

/-- An `anyhow::Error` chain: the context phrases added by `.context`
calls, outermost first, around a root cause. -/
structure AppError where
  contexts : List String
  base : BaseErr
deriving DecidableEq, Repr

/-- `.context(phrase)` on a failed `Result`: pushes one more context
phrase on the outside of the chain. -/
def addContext (s : String) (e : AppError) : AppError :=
  ⟨s :: e.contexts, e.base⟩

/-- Outcome of `std::env::var`: a Unicode value, `VarError::NotPresent`,
or `VarError::NotUnicode`. -/
inductive EnvVarResult where
  | present (s : String)
  | notPresent
  | notUnicode
deriving DecidableEq, Repr

/-- `std::env::var("PCCS_URL").unwrap_or_default()`: both error variants
collapse to the empty string. -/
def envVarOrDefault : EnvVarResult → String
  | .present s => s
  | .notPresent => ""
  | .notUnicode => ""

/-- Observable effects a command performs, in order. -/
inductive Effect where
  | stdoutLine (s : String)
  | stderrLine (s : String)
  | readEnvVar (name : String)
  | fetchFromPcs (quote : Bytes) (timeoutSecs : Nat)
  | fetchFromPccs (url : String) (quote : Bytes) (timeoutSecs : Nat)
  | writeFile (path : String) (content : String)
deriving DecidableEq, Repr

/-- The six-field collateral record (`dcap_qvl::QuoteCollateralV3`) as
consumed by the CLI: issuer chains and bodies are text, the two
signatures are raw bytes. -/
structure QuoteCollateralV3 where
  tcb_info_issuer_chain : String
  tcb_info : String
  tcb_info_signature : Bytes
  qe_identity_issuer_chain : String
  qe_identity : String
  qe_identity_signature : Bytes
deriving DecidableEq, Repr

/-- The CLI's export record `QuoteCollateralV3Json`: all six fields as
text, the signatures hex-encoded. -/
structure QuoteCollateralV3Json where
  tcb_info_issuer_chain : String
  tcb_info : String
  tcb_info_signature : String
  qe_identity_issuer_chain : String
  qe_identity : String
  qe_identity_signature : String
deriving DecidableEq, Repr

/-- `hex::encode` of a byte string, as text. -/
def hexEncodeString (b : Bytes) : String :=
  String.mk ((hexEncode b).map Char.ofNat)

/-- One character of Rust's `char::escape_debug` as used by `str`'s
`Debug` formatting, modelled for the escapes relevant to ASCII text:
backslash escapes for quote, backslash, newline, carriage return and
tab, and a braced unicode escape for other control characters. -/
def escapeDebugChar (c : Char) : String :=
  if c = '"' then "\\\""
  else if c = '\\' then "\\\\"
  else if c = '\n' then "\\n"
  else if c = '\r' then "\\r"
  else if c = '\t' then "\\t"
  else if c.toNat < 32 ∨ c.toNat = 127 then
    "\\u\x7b" ++ String.mk (Nat.toDigits 16 c.toNat) ++ "\x7d"
  else String.singleton c

/-- Rust `Debug` rendering of a string: quoted, characters escaped. -/
def debugStr (s : String) : String :=
  "\"" ++ String.join (s.toList.map escapeDebugChar) ++ "\""

/-- The derived `Debug` rendering of `QuoteCollateralV3Json` in
non-alternate mode: `QuoteCollateralV3Json { field: "value", ... }` on a
single line. -/
def debugRender (j : QuoteCollateralV3Json) : String :=
  "QuoteCollateralV3Json \x7b tcb_info_issuer_chain: " ++
    debugStr j.tcb_info_issuer_chain ++
  ", tcb_info: " ++ debugStr j.tcb_info ++
  ", tcb_info_signature: " ++ debugStr j.tcb_info_signature ++
  ", qe_identity_issuer_chain: " ++ debugStr j.qe_identity_issuer_chain ++
  ", qe_identity: " ++ debugStr j.qe_identity ++
  ", qe_identity_signature: " ++ debugStr j.qe_identity_signature ++
  " \x7d"

/-- Construction of the export record from retrieved collateral: copy
the four text fields, hex-encode the two signatures. -/
def toExportJson (c : QuoteCollateralV3) : QuoteCollateralV3Json :=
  { tcb_info_issuer_chain := c.tcb_info_issuer_chain
    tcb_info := c.tcb_info
    tcb_info_signature := hexEncodeString c.tcb_info_signature
    qe_identity_issuer_chain := c.qe_identity_issuer_chain
    qe_identity := c.qe_identity
    qe_identity_signature := hexEncodeString c.qe_identity_signature }

/-- The shared collateral-acquisition block of `command_verify_quote`
and `command_collateral_quote`: read `PCCS_URL` (empty on absence or
non-Unicode), print a status line naming the chosen source, then fetch
from the public PCS when the value is empty and from the configured
PCCS otherwise, with a 60-second timeout. The fetch attempt is recorded
even when it fails; a failure propagates with no added context. -/
def getCollateralStep (env : EnvVarResult)
    (pcs : Bytes → Except RetrievalErr QuoteCollateralV3)
    (pccs : String → Bytes → Except RetrievalErr QuoteCollateralV3)
    (q : Bytes) : List Effect × Except AppError QuoteCollateralV3 :=
  let url := envVarOrDefault env
  if url = "" then
    ([.readEnvVar "PCCS_URL", .stderrLine "Getting collateral from PCS...",
      .fetchFromPcs q 60],
     (pcs q).mapError fun r => ⟨[], .retrievalFailed r⟩)
  else
    ([.readEnvVar "PCCS_URL", .stderrLine ("Getting collateral from " ++ url),
      .fetchFromPccs url q 60],
     (pccs url q).mapError fun r => ⟨[], .retrievalFailed r⟩)

/-- Oracles for one `verify` invocation: outcomes of the file read, the
`PCCS_URL` lookup, the two retrieval strategies, the system clock, the
external verifier, and the report serializer (`serde_json::to_string`
followed by `.unwrap()`, hence total). `R` is the opaque report type. -/
structure VerifyWorld (R : Type) where
  fileBytes : Except Unit Bytes
  env : EnvVarResult
  pcs : Bytes → Except RetrievalErr QuoteCollateralV3
  pccs : String → Bytes → Except RetrievalErr QuoteCollateralV3
  now : Except Unit Nat
  verifyFn : Bytes → QuoteCollateralV3 → Nat → Except Unit R
  reportJson : R → String

/-- `command_verify_quote`: read the file, hex-normalize, acquire
collateral, capture the time, verify (an absent result becomes the
`noVerifyResult` error carrying the phrase of the
`.ok().context("Failed to verify quote")` call), then print the report
JSON on stdout and `Quote verified` on stderr. -/
def command_verify_quote {R : Type} (w : VerifyWorld R) (isHex : Bool) :
    List Effect × Except AppError Unit :=
  match w.fileBytes with
  | .error _ => ([], .error ⟨["Failed to read quote file"], .readFailed⟩)
  | .ok raw =>
    match hex_decode raw isHex with
    | .error e => ([], .error ⟨["Failed to decode quote file"], .hexDecodeFailed e⟩)
    | .ok quote =>
      let step := getCollateralStep w.env w.pcs w.pccs quote
      match step.2 with
      | .error ae => (step.1, .error ae)
      | .ok col =>
        match w.now with
        | .error _ => (step.1, .error ⟨[], .sysTimeFailed⟩)
        | .ok t =>
          match w.verifyFn quote col t with
          | .error _ => (step.1, .error ⟨["Failed to verify quote"], .noVerifyResult⟩)
          | .ok rep =>
            (step.1 ++ [.stdoutLine (w.reportJson rep), .stderrLine "Quote verified"],
             .ok ())

/-- Oracles for one `collateral` invocation. `writeOutcome` is what the
file system does with the `std::fs::write` call; the source discards
that `Result`, so the command never consults it. -/
structure CollateralWorld where
  fileBytes : Except Unit Bytes
  env : EnvVarResult
  pcs : Bytes → Except RetrievalErr QuoteCollateralV3
  pccs : String → Bytes → Except RetrievalErr QuoteCollateralV3
  writeOutcome : Except Unit Unit

/-- `command_collateral_quote`: read the file, hex-normalize, acquire
collateral, build the export record, write the debug rendering minus
its first 22 characters to `quote_collateral.json` (outcome ignored),
then print the debug rendering on stdout. -/
def command_collateral_quote (w : CollateralWorld) (isHex : Bool) :
    List Effect × Except AppError Unit :=
  match w.fileBytes with
  | .error _ => ([], .error ⟨["Failed to read quote file"], .readFailed⟩)
  | .ok raw =>
    match hex_decode raw isHex with
    | .error e => ([], .error ⟨["Failed to decode quote file"], .hexDecodeFailed e⟩)
    | .ok quote =>
      let step := getCollateralStep w.env w.pcs w.pccs quote
      match step.2 with
      | .error ae => (step.1, .error ae)
      | .ok col =>
        let json := toExportJson col
        let outStr := debugRender json
        (step.1 ++ [.writeFile "quote_collateral.json" (outStr.drop 22),
           .stdoutLine (debugRender json)],
         .ok ())

/-- Oracles for one `decode` invocation: file read, the external quote
parser and the JSON serializer. `Q` is the opaque decoded-quote type. -/
structure DecodeWorld (Q : Type) where
  fileBytes : Except Unit Bytes
  parseQuote : Bytes → Except Unit Q
  quoteJson : Q → Except Unit String

/-- `command_decode_quote`: read the file, hex-normalize, parse,
serialize, print the JSON on stdout. -/
def command_decode_quote {Q : Type} (w : DecodeWorld Q) (isHex : Bool) :
    List Effect × Except AppError Unit :=
  match w.fileBytes with
  | .error _ => ([], .error ⟨["Failed to read quote file"], .readFailed⟩)
  | .ok raw =>
    match hex_decode raw isHex with
    | .error e => ([], .error ⟨["Failed to decode quote file"], .hexDecodeFailed e⟩)
    | .ok quote =>
      match w.parseQuote quote with
      | .error _ => ([], .error ⟨["Failed to parse quote"], .parseFailed⟩)
      | .ok dq =>
        match w.quoteJson dq with
        | .error _ => ([], .error ⟨["Failed to serialize quote"], .serializeFailed⟩)
        | .ok j => ([.stdoutLine j], .ok ())

/-- `main`'s `Decode` arm: the subcommand's failure is wrapped with the
phrase `Failed to decode quote`. -/
def main_decode {Q : Type} (w : DecodeWorld Q) (isHex : Bool) :
    List Effect × Except AppError Unit :=
  let r := command_decode_quote w isHex
  (r.1, r.2.mapError (addContext "Failed to decode quote"))

/-- `main`'s `Verify` arm: the subcommand's failure is wrapped with the
phrase `Failed to verify quote`. -/
def main_verify {R : Type} (w : VerifyWorld R) (isHex : Bool) :
    List Effect × Except AppError Unit :=
  let r := command_verify_quote w isHex
  (r.1, r.2.mapError (addContext "Failed to verify quote"))

/-- `main`'s `Collateral` arm: the source wraps this subcommand's
failure with the phrase `Failed to decode quote` (the same phrase as
the `Decode` arm). -/
def main_collateral (w : CollateralWorld) (isHex : Bool) :
    List Effect × Except AppError Unit :=
  let r := command_collateral_quote w isHex
  (r.1, r.2.mapError (addContext "Failed to decode quote"))

/-- Process exit status: zero on `Ok`, nonzero (1) when `main` returns
an error. -/
def exitCode (r : Except AppError Unit) : Nat :=
  match r with
  | .ok _ => 0
  | .error _ => 1

/-- Contents of the stdout lines of a trace, in order. -/
def stdoutLines (tr : List Effect) : List String :=
  tr.filterMap fun e =>
    match e with
    | .stdoutLine s => some s
    | _ => none

/-- The retrieval attempts of a trace (both strategies), in order. -/
def fetchEvents (tr : List Effect) : List Effect :=
  tr.filter fun e =>
    match e with
    | .fetchFromPcs _ _ => true
    | .fetchFromPccs _ _ _ => true
    | _ => false

/-- The timeouts (in seconds) passed to the retrieval attempts of a
trace, in order. -/
def fetchTimeouts (tr : List Effect) : List Nat :=
  tr.filterMap fun e =>
    match e with
    | .fetchFromPcs _ t => some t
    | .fetchFromPccs _ _ t => some t
    | _ => none

/-- The environment lookups of a trace, in order. -/
def envReads (tr : List Effect) : List Effect :=
  tr.filter fun e =>
    match e with
    | .readEnvVar _ => true
    | _ => false

/-- The file writes of a trace, in order. -/
def writeEvents (tr : List Effect) : List Effect :=
  tr.filter fun e =>
    match e with
    | .writeFile _ _ => true
    | _ => false

/-- The single retrieval strategy selected by source resolution: the
public PCS when the configured `PCCS_URL` is absent, non-Unicode or
empty, the custom PCCS at that URL otherwise, both with the 60-second
timeout. -/
def chosenFetch (env : EnvVarResult) (q : Bytes) : Effect :=
  if envVarOrDefault env = "" then .fetchFromPcs q 60
  else .fetchFromPccs (envVarOrDefault env) q 60

/-- The outcome of the single retrieval strategy selected by source
resolution. -/
def chosenRetrieval (env : EnvVarResult)
    (pcs : Bytes → Except RetrievalErr QuoteCollateralV3)
    (pccs : String → Bytes → Except RetrievalErr QuoteCollateralV3)
    (q : Bytes) : Except RetrievalErr QuoteCollateralV3 :=
  if envVarOrDefault env = "" then pcs q else pccs (envVarOrDefault env) q

/-- A sample six-field collateral record used by concrete runs. -/
def sampleCollateral : QuoteCollateralV3 :=
  ⟨"tcbChain", "tcbInfo", [1, 2], "qeChain", "qeId", [3, 4]⟩

/-- A concrete verify world: readable file, `PCCS_URL` unset, PCS
retrieval succeeding, verifier succeeding. -/
def WV : VerifyWorld Nat :=
  { fileBytes := .ok [171]
    env := .notPresent
    pcs := fun _ => .ok sampleCollateral
    pccs := fun _ _ => .error .network
    now := .ok 1700000000
    verifyFn := fun _ _ _ => .ok 5
    reportJson := fun n => toString n }

/-- A concrete collateral world: readable file, `PCCS_URL` set, custom
retrieval succeeding. -/
def WC : CollateralWorld :=
  { fileBytes := .ok [171]
    env := .present "https://pccs.example"
    pcs := fun _ => .error .network
    pccs := fun _ _ => .ok sampleCollateral
    writeOutcome := .ok () }

/-- A concrete verify world whose PCS retrieval times out. -/
def WVfail : VerifyWorld Nat :=
  { fileBytes := .ok [171]
    env := .notPresent
    pcs := fun _ => .error .timeout
    pccs := fun _ _ => .error .network
    now := .ok 1700000000
    verifyFn := fun _ _ _ => .ok 5
    reportJson := fun n => toString n }

/-- A concrete collateral world whose custom PCCS retrieval times out. -/
def WCfail : CollateralWorld :=
  { fileBytes := .ok []
    env := .present "https://pccs.example"
    pcs := fun _ => .ok sampleCollateral
    pccs := fun _ _ => .error .timeout
    writeOutcome := .ok () }

/-- A concrete collateral world identical to a successful PCS run except
that the file system rejects the export write. -/
def CW5 : CollateralWorld :=
  { fileBytes := .ok [171]
    env := .notPresent
    pcs := fun _ => .ok sampleCollateral
    pccs := fun _ _ => .error .network
    writeOutcome := .error () }

/-- A concrete decode world whose quote file is unreadable. -/
def WDfail : DecodeWorld Nat :=
  { fileBytes := .error ()
    parseQuote := fun _ => .ok 0
    quoteJson := fun _ => .ok "x" }

/-- A concrete verify world whose quote file holds `"0xz"`, which the
hex normalizer rejects (odd length after stripping). -/
def WVbadhex : VerifyWorld Nat :=
  { fileBytes := .ok [48, 120, 122]
    env := .notPresent
    pcs := fun _ => .ok sampleCollateral
    pccs := fun _ _ => .error .network
    now := .ok 1700000000
    verifyFn := fun _ _ _ => .ok 5
    reportJson := fun n => toString n }

theorem hexDigitVal_hexDigitChar (n : Nat) (h : n < 16) :
    hexDigitVal (hexDigitChar n) = some n := by
  unfold hexDigitVal hexDigitChar
  by_cases h10 : n < 10
  · rw [if_pos h10, if_pos (by omega)]
    congr 1
    omega
  · rw [if_neg h10, if_neg (by omega), if_pos (by omega)]
    congr 1
    omega

theorem hexDigitChar_ne_newline (n : Nat) : hexDigitChar n ≠ 10 := by
  unfold hexDigitChar; split <;> omega

theorem hexDigitChar_ne_x (n : Nat) (h : n < 16) : hexDigitChar n ≠ 120 := by
  unfold hexDigitChar; split <;> omega

theorem hexPairs_hexEncode (B : Bytes) (h : ∀ b ∈ B, b < 256) :
    hexPairs (hexEncode B) = .ok B := by
  induction B with
  | nil => rfl
  | cons b rest ih =>
    have hb : b < 256 := h b (List.mem_cons_self b rest)
    have hrest : ∀ x ∈ rest, x < 256 := fun x hx => h x (List.mem_cons_of_mem b hx)
    have hhi : b / 16 < 16 := Nat.div_lt_of_lt_mul (by omega)
    have hlo : b % 16 < 16 := Nat.mod_lt b (by omega)
    have hb16 : b / 16 * 16 + b % 16 = b := by omega
    simp only [hexEncode, hexPairs, hexDigitVal_hexDigitChar _ hhi,
      hexDigitVal_hexDigitChar _ hlo, ih hrest, hb16]

theorem hexEncode_length (B : Bytes) : (hexEncode B).length = 2 * B.length := by
  induction B with
  | nil => rfl
  | cons b rest ih => simp [hexEncode, ih]; omega

theorem hexDecode_hexEncode (B : Bytes) (h : ∀ b ∈ B, b < 256) :
    hexDecode (hexEncode B) = .ok B := by
  unfold hexDecode
  rw [hexEncode_length]
  simp only [Nat.mul_mod_right]
  exact hexPairs_hexEncode B h

theorem strip0x_of_ne (l : Bytes) (h : ∀ rest, l ≠ 48 :: 120 :: rest) :
    strip0x l = l := by
  unfold strip0x
  split
  · rename_i rest
    exact absurd rfl (h rest)
  · rfl

theorem stripNl_concat (l : Bytes) : stripNl (l ++ [10]) = l := by
  unfold stripNl
  rw [List.getLast?_concat, List.dropLast_concat]
  simp

theorem stripNl_of_ne (l : Bytes) (h : ∀ x ∈ l, x ≠ 10) : stripNl l = l := by
  unfold stripNl
  split
  · rename_i hl
    exact absurd hl (by
      intro hc
      exact h 10 (List.mem_of_getLast?_eq_some hc) rfl)
  · rfl

theorem hexEncode_mem (B : Bytes) (h : ∀ b ∈ B, b < 256) (x : Nat)
    (hx : x ∈ hexEncode B) : ∃ n, n < 16 ∧ x = hexDigitChar n := by
  induction B with
  | nil => cases hx
  | cons b rest ih =>
    have hb : b < 256 := h b (List.mem_cons_self b rest)
    have hrest : ∀ y ∈ rest, y < 256 := fun y hy => h y (List.mem_cons_of_mem b hy)
    simp only [hexEncode, List.mem_cons] at hx
    rcases hx with h1 | h2 | h3
    · exact ⟨b / 16, Nat.div_lt_of_lt_mul (by omega), h1⟩
    · exact ⟨b % 16, Nat.mod_lt b (by omega), h2⟩
    · exact ih hrest h3

theorem hexPairs_error_iff : ∀ l : Bytes, l.length % 2 = 0 →
    ((∃ e, hexPairs l = .error e) ↔ ∃ b ∈ l, hexDigitVal b = none)
  | [], _ => by simp [hexPairs]
  | [_], h => by simp at h
  | a :: b :: rest, h => by
    have hrest : rest.length % 2 = 0 := by
      simp only [List.length_cons] at h
      omega
    have ih := hexPairs_error_iff rest hrest
    simp only [hexPairs]
    cases ha : hexDigitVal a with
    | none =>
      constructor
      · intro _
        exact ⟨a, List.mem_cons_self _ _, ha⟩
      · intro _
        exact ⟨.invalidChar, rfl⟩
    | some va =>
      cases hb : hexDigitVal b with
      | none =>
        constructor
        · intro _
          exact ⟨b, List.mem_cons_of_mem _ (List.mem_cons_self _ _), hb⟩
        · intro _
          exact ⟨.invalidChar, rfl⟩
      | some vb =>
        cases hp : hexPairs rest with
        | ok tl =>
          constructor
          · rintro ⟨e, he⟩
            cases he
          · rintro ⟨x, hx, hxv⟩
            rcases List.mem_cons.mp hx with rfl | hx2
            · rw [ha] at hxv
              cases hxv
            rcases List.mem_cons.mp hx2 with rfl | hx3
            · rw [hb] at hxv
              cases hxv
            rcases ih.mpr ⟨x, hx3, hxv⟩ with ⟨e, he⟩
            rw [hp] at he
            cases he
        | error e =>
          constructor
          · intro _
            rcases ih.mp ⟨e, hp⟩ with ⟨x, hx, hxv⟩
            exact ⟨x, List.mem_cons_of_mem _ (List.mem_cons_of_mem _ hx), hxv⟩
          · intro _
            exact ⟨e, rfl⟩

theorem hexDecode_error_iff (l : Bytes) :
    (∃ e, hexDecode l = .error e) ↔
      l.length % 2 = 1 ∨ ∃ b ∈ l, hexDigitVal b = none := by
  unfold hexDecode
  by_cases hpar : l.length % 2 = 1
  · rw [if_pos hpar]
    constructor
    · intro _
      exact Or.inl hpar
    · intro _
      exact ⟨.oddLength, rfl⟩
  · rw [if_neg hpar]
    have heven : l.length % 2 = 0 := by omega
    rw [hexPairs_error_iff l heven]
    constructor
    · exact Or.inr
    · rintro (h1 | h2)
      · exact absurd h1 hpar
      · exact h2

theorem strip0x_data (B : Bytes) (hB : ∀ b ∈ B, b < 256) (tail : Bytes)
    (htail : tail.length ≤ 1) :
    strip0x (hexEncode B ++ tail) = hexEncode B ++ tail := by
  apply strip0x_of_ne
  intro rest hc
  cases B with
  | nil =>
    simp only [hexEncode, List.nil_append] at hc
    rw [hc] at htail
    simp at htail
  | cons b bs =>
    simp only [hexEncode, List.cons_append, List.cons.injEq] at hc
    have hb : b < 256 := hB b (List.mem_cons_self _ _)
    exact hexDigitChar_ne_x (b % 16) (Nat.mod_lt b (by omega)) hc.2.1

/-- Claim C1: for every byte sequence `B`, the hex normalizer with
`is_hex = true` applied to `hex_encode(B)`, optionally preceded by `"0x"`
and optionally followed by a single trailing newline, returns exactly
`B`. -/
theorem claim_c1 (B : Bytes) (hB : ∀ b ∈ B, b < 256) (pre nl : Bool) :
    hex_decode ((if pre then [48, 120] else []) ++ hexEncode B ++
      (if nl then [10] else [])) true = .ok B := by
  have hstrip : strip0x ((if pre then [48, 120] else []) ++ hexEncode B ++
      (if nl then [10] else [])) = hexEncode B ++ (if nl then [10] else []) := by
    cases pre with
    | true =>
      simp only [if_pos rfl, List.append_assoc]
      rfl
    | false =>
      simp only [if_neg Bool.false_ne_true, List.nil_append]
      exact strip0x_data B hB _ (by cases nl <;> simp)
  have hnl : stripNl (hexEncode B ++ (if nl then [10] else [])) = hexEncode B := by
    cases nl with
    | true => exact stripNl_concat (hexEncode B)
    | false =>
      simp only [if_neg Bool.false_ne_true, List.append_nil]
      apply stripNl_of_ne
      intro x hx
      rcases hexEncode_mem B hB x hx with ⟨n, _, rfl⟩
      exact hexDigitChar_ne_newline n
  simp only [hex_decode, if_pos rfl, hstrip, hnl]
  exact hexDecode_hexEncode B hB

/-- Witness for C1 at `B = [0, 255]` with both the `"0x"` and the
trailing newline present. -/
theorem claim_c1_witness :
    hex_decode ((if true then [48, 120] else []) ++ hexEncode [0, 255] ++
      (if true then [10] else [])) true = .ok [0, 255] :=
  claim_c1 [0, 255] (by decide) true true

/-- Claim C2: with `is_hex = true`, `hex_decode` fails (with a decode
error) exactly when the bytes remaining after stripping one optional
`"0x"` and one optional trailing newline have odd length or contain a
byte that is not a hex digit. -/
theorem claim_c2 (input : Bytes) :
    (∃ e, hex_decode input true = .error e) ↔
      ((stripNl (strip0x input)).length % 2 = 1 ∨
        ∃ b ∈ stripNl (strip0x input), hexDigitVal b = none) := by
  simp only [hex_decode, if_pos rfl]
  exact hexDecode_error_iff (stripNl (strip0x input))

/-- Claim C10: with `is_hex = true`, an input consisting only of an
optional `"0x"` and/or an optional single trailing newline — including
the empty input — succeeds and yields the empty byte sequence. -/
theorem claim_c10 :
    hex_decode [] true = .ok [] ∧ hex_decode [48, 120] true = .ok [] ∧
      hex_decode [10] true = .ok [] ∧ hex_decode [48, 120, 10] true = .ok [] := by
  refine ⟨rfl, rfl, ?_, ?_⟩ <;> rfl

theorem getCollateralStep_fst (env : EnvVarResult)
    (pcs : Bytes → Except RetrievalErr QuoteCollateralV3)
    (pccs : String → Bytes → Except RetrievalErr QuoteCollateralV3)
    (q : Bytes) :
    (getCollateralStep env pcs pccs q).1 =
      [.readEnvVar "PCCS_URL",
       .stderrLine (if envVarOrDefault env = "" then "Getting collateral from PCS..."
         else "Getting collateral from " ++ envVarOrDefault env),
       chosenFetch env q] := by
  unfold getCollateralStep chosenFetch
  by_cases h : envVarOrDefault env = "" <;> simp [h]

theorem getCollateralStep_snd (env : EnvVarResult)
    (pcs : Bytes → Except RetrievalErr QuoteCollateralV3)
    (pccs : String → Bytes → Except RetrievalErr QuoteCollateralV3)
    (q : Bytes) :
    (getCollateralStep env pcs pccs q).2 =
      (chosenRetrieval env pcs pccs q).mapError fun r => ⟨[], .retrievalFailed r⟩ := by
  unfold getCollateralStep chosenRetrieval
  by_cases h : envVarOrDefault env = "" <;> simp [h]

theorem stdoutLines_step (env : EnvVarResult)
    (pcs : Bytes → Except RetrievalErr QuoteCollateralV3)
    (pccs : String → Bytes → Except RetrievalErr QuoteCollateralV3)
    (q : Bytes) :
    stdoutLines (getCollateralStep env pcs pccs q).1 = [] := by
  rw [getCollateralStep_fst]
  unfold chosenFetch
  by_cases h : envVarOrDefault env = "" <;> simp [h, stdoutLines]

theorem writeEvents_step (env : EnvVarResult)
    (pcs : Bytes → Except RetrievalErr QuoteCollateralV3)
    (pccs : String → Bytes → Except RetrievalErr QuoteCollateralV3)
    (q : Bytes) :
    writeEvents (getCollateralStep env pcs pccs q).1 = [] := by
  rw [getCollateralStep_fst]
  unfold chosenFetch
  by_cases h : envVarOrDefault env = "" <;> simp [h, writeEvents]

theorem envReads_step (env : EnvVarResult)
    (pcs : Bytes → Except RetrievalErr QuoteCollateralV3)
    (pccs : String → Bytes → Except RetrievalErr QuoteCollateralV3)
    (q : Bytes) :
    envReads (getCollateralStep env pcs pccs q).1 = [.readEnvVar "PCCS_URL"] := by
  rw [getCollateralStep_fst]
  unfold chosenFetch
  by_cases h : envVarOrDefault env = "" <;> simp [h, envReads]

theorem fetchEvents_step (env : EnvVarResult)
    (pcs : Bytes → Except RetrievalErr QuoteCollateralV3)
    (pccs : String → Bytes → Except RetrievalErr QuoteCollateralV3)
    (q : Bytes) :
    fetchEvents (getCollateralStep env pcs pccs q).1 = [chosenFetch env q] := by
  rw [getCollateralStep_fst]
  unfold chosenFetch
  by_cases h : envVarOrDefault env = "" <;> simp [h, fetchEvents]

theorem fetchTimeouts_step (env : EnvVarResult)
    (pcs : Bytes → Except RetrievalErr QuoteCollateralV3)
    (pccs : String → Bytes → Except RetrievalErr QuoteCollateralV3)
    (q : Bytes) :
    fetchTimeouts (getCollateralStep env pcs pccs q).1 = [60] := by
  rw [getCollateralStep_fst]
  unfold chosenFetch
  by_cases h : envVarOrDefault env = "" <;> simp [h, fetchTimeouts]

theorem command_verify_shape {R : Type} (w : VerifyWorld R) (hx : Bool)
    (raw q : Bytes) (h1 : w.fileBytes = .ok raw) (h2 : hex_decode raw hx = .ok q) :
    ∃ rest, (command_verify_quote w hx).1 =
        (getCollateralStep w.env w.pcs w.pccs q).1 ++ rest ∧
      ((∃ ae, (getCollateralStep w.env w.pcs w.pccs q).2 = .error ae ∧
          rest = [] ∧ (command_verify_quote w hx).2 = .error ae) ∨
       (∃ col, (getCollateralStep w.env w.pcs w.pccs q).2 = .ok col ∧
         ((w.now = .error () ∧ rest = [] ∧
            (command_verify_quote w hx).2 = .error ⟨[], .sysTimeFailed⟩) ∨
          (∃ t, w.now = .ok t ∧
            ((∃ u, w.verifyFn q col t = .error u ∧ rest = [] ∧
               (command_verify_quote w hx).2 =
                 .error ⟨["Failed to verify quote"], .noVerifyResult⟩) ∨
             (∃ rep, w.verifyFn q col t = .ok rep ∧
               rest = [.stdoutLine (w.reportJson rep), .stderrLine "Quote verified"] ∧
               (command_verify_quote w hx).2 = .ok ())))))) := by
  unfold command_verify_quote
  split
  · rename_i heq
    rw [h1] at heq
    cases heq
  rename_i raw2 heq
  rw [h1] at heq
  cases heq
  split
  · rename_i heq2
    rw [h2] at heq2
    cases heq2
  rename_i q2 heq2
  rw [h2] at heq2
  cases heq2
  dsimp only
  split
  · rename_i ae hst
    exact ⟨[], by simp, Or.inl ⟨ae, hst, rfl, rfl⟩⟩
  rename_i col hst
  split
  · rename_i u hn
    exact ⟨[], by simp, Or.inr ⟨col, hst, Or.inl ⟨hn, rfl, rfl⟩⟩⟩
  rename_i t hn
  split
  · rename_i u hv
    exact ⟨[], by simp, Or.inr ⟨col, hst, Or.inr ⟨t, hn, Or.inl ⟨u, hv, rfl, rfl⟩⟩⟩⟩
  rename_i rep hv
  exact ⟨[.stdoutLine (w.reportJson rep), .stderrLine "Quote verified"], rfl,
    Or.inr ⟨col, hst, Or.inr ⟨t, hn, Or.inr ⟨rep, hv, rfl, rfl⟩⟩⟩⟩

theorem command_collateral_shape (wc : CollateralWorld) (hxc : Bool)
    (rawc qc : Bytes) (h3 : wc.fileBytes = .ok rawc)
    (h4 : hex_decode rawc hxc = .ok qc) :
    ∃ rest, (command_collateral_quote wc hxc).1 =
        (getCollateralStep wc.env wc.pcs wc.pccs qc).1 ++ rest ∧
      ((∃ ae, (getCollateralStep wc.env wc.pcs wc.pccs qc).2 = .error ae ∧
          rest = [] ∧ (command_collateral_quote wc hxc).2 = .error ae) ∨
       (∃ col, (getCollateralStep wc.env wc.pcs wc.pccs qc).2 = .ok col ∧
         rest = [.writeFile "quote_collateral.json"
                   ((debugRender (toExportJson col)).drop 22),
                 .stdoutLine (debugRender (toExportJson col))] ∧
         (command_collateral_quote wc hxc).2 = .ok ())) := by
  unfold command_collateral_quote
  split
  · rename_i heq
    rw [h3] at heq
    cases heq
  rename_i raw2 heq
  rw [h3] at heq
  cases heq
  split
  · rename_i heq2
    rw [h4] at heq2
    cases heq2
  rename_i q2 heq2
  rw [h4] at heq2
  cases heq2
  dsimp only
  split
  · rename_i ae hst
    exact ⟨[], by simp, Or.inl ⟨ae, hst, rfl, rfl⟩⟩
  rename_i col hst
  exact ⟨[.writeFile "quote_collateral.json"
            ((debugRender (toExportJson col)).drop 22),
          .stdoutLine (debugRender (toExportJson col))], rfl,
    Or.inr ⟨col, hst, rfl, rfl⟩⟩

theorem envReads_append (a b : List Effect) :
    envReads (a ++ b) = envReads a ++ envReads b := by
  simp [envReads]

theorem fetchEvents_append (a b : List Effect) :
    fetchEvents (a ++ b) = fetchEvents a ++ fetchEvents b := by
  simp [fetchEvents]

theorem fetchTimeouts_append (a b : List Effect) :
    fetchTimeouts (a ++ b) = fetchTimeouts a ++ fetchTimeouts b := by
  simp [fetchTimeouts]

theorem stdoutLines_append (a b : List Effect) :
    stdoutLines (a ++ b) = stdoutLines a ++ stdoutLines b := by
  simp [stdoutLines]

theorem writeEvents_append (a b : List Effect) :
    writeEvents (a ++ b) = writeEvents a ++ writeEvents b := by
  simp [writeEvents]

/-- Claim C3: in both the verify and the collateral command, once the
quote is available the `PCCS_URL` configuration is read exactly once and
before the retrieval attempt; an absent or empty value selects the
default public PCS fetch and a nonempty value `u` selects the custom
fetch at `u`; exactly one of the two retrieval strategies is attempted. -/
theorem claim_c3 {R : Type} (w : VerifyWorld R) (wc : CollateralWorld)
    (hx hxc : Bool) (raw q rawc qc : Bytes)
    (h1 : w.fileBytes = .ok raw) (h2 : hex_decode raw hx = .ok q)
    (h3 : wc.fileBytes = .ok rawc) (h4 : hex_decode rawc hxc = .ok qc) :
    (∃ msg rest, (command_verify_quote w hx).1 =
      .readEnvVar "PCCS_URL" :: .stderrLine msg :: chosenFetch w.env q :: rest) ∧
    envReads (command_verify_quote w hx).1 = [.readEnvVar "PCCS_URL"] ∧
    fetchEvents (command_verify_quote w hx).1 = [chosenFetch w.env q] ∧
    (∃ msg rest, (command_collateral_quote wc hxc).1 =
      .readEnvVar "PCCS_URL" :: .stderrLine msg :: chosenFetch wc.env qc :: rest) ∧
    envReads (command_collateral_quote wc hxc).1 = [.readEnvVar "PCCS_URL"] ∧
    fetchEvents (command_collateral_quote wc hxc).1 = [chosenFetch wc.env qc] ∧
    (envVarOrDefault w.env = "" → chosenFetch w.env q = .fetchFromPcs q 60) ∧
    (envVarOrDefault w.env ≠ "" →
      chosenFetch w.env q = .fetchFromPccs (envVarOrDefault w.env) q 60) := by
  obtain ⟨restv, htv, hcv⟩ := command_verify_shape w hx raw q h1 h2
  obtain ⟨restc, htc, hcc⟩ := command_collateral_shape wc hxc rawc qc h3 h4
  have hrv : envReads restv = [] ∧ fetchEvents restv = [] := by
    rcases hcv with ⟨ae, _, hr, _⟩ | ⟨col, _, ⟨_, hr, _⟩ | ⟨t, _, ⟨u, _, hr, _⟩ | ⟨rep, _, hr, _⟩⟩⟩ <;>
      subst hr <;> simp [envReads, fetchEvents]
  have hrc : envReads restc = [] ∧ fetchEvents restc = [] := by
    rcases hcc with ⟨ae, _, hr, _⟩ | ⟨col, _, hr, _⟩ <;>
      subst hr <;> simp [envReads, fetchEvents]
  have h5 := getCollateralStep_fst w.env w.pcs w.pccs q
  have h6 := getCollateralStep_fst wc.env wc.pcs wc.pccs qc
  refine ⟨⟨_, restv, by rw [htv, h5]; rfl⟩,
    by rw [htv, envReads_append, envReads_step, hrv.1]; rfl,
    by rw [htv, fetchEvents_append, fetchEvents_step, hrv.2]; rfl,
    ⟨_, restc, by rw [htc, h6]; rfl⟩,
    by rw [htc, envReads_append, envReads_step, hrc.1]; rfl,
    by rw [htc, fetchEvents_append, fetchEvents_step, hrc.2]; rfl,
    fun h => by rw [chosenFetch, if_pos h],
    fun h => by rw [chosenFetch, if_neg h]⟩

/-- Witness for C3 at the concrete worlds `WV` (default source) and
`WC` (custom source). -/
theorem claim_c3_witness :
    (∃ msg rest, (command_verify_quote WV false).1 =
      .readEnvVar "PCCS_URL" :: .stderrLine msg :: chosenFetch WV.env [171] :: rest) ∧
    envReads (command_verify_quote WV false).1 = [.readEnvVar "PCCS_URL"] ∧
    fetchEvents (command_verify_quote WV false).1 = [chosenFetch WV.env [171]] ∧
    (∃ msg rest, (command_collateral_quote WC false).1 =
      .readEnvVar "PCCS_URL" :: .stderrLine msg :: chosenFetch WC.env [171] :: rest) ∧
    envReads (command_collateral_quote WC false).1 = [.readEnvVar "PCCS_URL"] ∧
    fetchEvents (command_collateral_quote WC false).1 = [chosenFetch WC.env [171]] ∧
    (envVarOrDefault WV.env = "" → chosenFetch WV.env [171] = .fetchFromPcs [171] 60) ∧
    (envVarOrDefault WV.env ≠ "" →
      chosenFetch WV.env [171] = .fetchFromPccs (envVarOrDefault WV.env) [171] 60) :=
  claim_c3 WV WC false false [171] [171] [171] [171] rfl rfl rfl rfl

/-- Claim C4: in both commands the single retrieval attempt carries
exactly the 60-second timeout, and a failing retrieval is terminal: the
command's result is the retrieval error (with no retry — the trace holds
exactly one attempt) and nothing report-shaped reaches stdout (for the
collateral command, no file write happens either). -/
theorem claim_c4 {R : Type} (w : VerifyWorld R) (wc : CollateralWorld)
    (hx hxc : Bool) (raw q rawc qc : Bytes)
    (h1 : w.fileBytes = .ok raw) (h2 : hex_decode raw hx = .ok q)
    (h3 : wc.fileBytes = .ok rawc) (h4 : hex_decode rawc hxc = .ok qc) :
    fetchTimeouts (command_verify_quote w hx).1 = [60] ∧
    fetchTimeouts (command_collateral_quote wc hxc).1 = [60] ∧
    (∀ r, chosenRetrieval w.env w.pcs w.pccs q = .error r →
      (command_verify_quote w hx).2 = .error ⟨[], .retrievalFailed r⟩ ∧
      stdoutLines (command_verify_quote w hx).1 = []) ∧
    (∀ r, chosenRetrieval wc.env wc.pcs wc.pccs qc = .error r →
      (command_collateral_quote wc hxc).2 = .error ⟨[], .retrievalFailed r⟩ ∧
      stdoutLines (command_collateral_quote wc hxc).1 = [] ∧
      writeEvents (command_collateral_quote wc hxc).1 = []) := by
  obtain ⟨restv, htv, hcv⟩ := command_verify_shape w hx raw q h1 h2
  obtain ⟨restc, htc, hcc⟩ := command_collateral_shape wc hxc rawc qc h3 h4
  have hrv : fetchTimeouts restv = [] := by
    rcases hcv with ⟨ae, _, hr, _⟩ | ⟨col, _, ⟨_, hr, _⟩ | ⟨t, _, ⟨u, _, hr, _⟩ | ⟨rep, _, hr, _⟩⟩⟩ <;>
      subst hr <;> simp [fetchTimeouts]
  have hrc : fetchTimeouts restc = [] := by
    rcases hcc with ⟨ae, _, hr, _⟩ | ⟨col, _, hr, _⟩ <;>
      subst hr <;> simp [fetchTimeouts]
  refine ⟨by rw [htv, fetchTimeouts_append, fetchTimeouts_step, hrv]; rfl,
    by rw [htc, fetchTimeouts_append, fetchTimeouts_step, hrc]; rfl, ?_, ?_⟩
  · intro r hr
    have hst : (getCollateralStep w.env w.pcs w.pccs q).2 =
        .error ⟨[], .retrievalFailed r⟩ := by
      rw [getCollateralStep_snd, hr]
      rfl
    rcases hcv with ⟨ae, hae, hrest, hres⟩ | ⟨col, hcol, _⟩
    · rw [hst] at hae
      cases hae
      subst hrest
      refine ⟨hres, ?_⟩
      rw [htv, stdoutLines_append, stdoutLines_step]
      rfl
    · rw [hst] at hcol
      cases hcol
  · intro r hr
    have hst : (getCollateralStep wc.env wc.pcs wc.pccs qc).2 =
        .error ⟨[], .retrievalFailed r⟩ := by
      rw [getCollateralStep_snd, hr]
      rfl
    rcases hcc with ⟨ae, hae, hrest, hres⟩ | ⟨col, hcol, _⟩
    · rw [hst] at hae
      cases hae
      subst hrest
      refine ⟨hres, ?_, ?_⟩
      · rw [htc, stdoutLines_append, stdoutLines_step]
        rfl
      · rw [htc, writeEvents_append, writeEvents_step]
        rfl
    · rw [hst] at hcol
      cases hcol

/-- Witness for C4 at concrete worlds where the chosen retrieval times
out in both commands. -/
theorem claim_c4_witness :
    fetchTimeouts (command_verify_quote WVfail false).1 = [60] ∧
    fetchTimeouts (command_collateral_quote WCfail false).1 = [60] ∧
    ((command_verify_quote WVfail false).2 = .error ⟨[], .retrievalFailed .timeout⟩ ∧
      stdoutLines (command_verify_quote WVfail false).1 = []) ∧
    ((command_collateral_quote WCfail false).2 = .error ⟨[], .retrievalFailed .timeout⟩ ∧
      stdoutLines (command_collateral_quote WCfail false).1 = [] ∧
      writeEvents (command_collateral_quote WCfail false).1 = []) := by
  have h := claim_c4 WVfail WCfail false false [171] [171] [] [] rfl rfl rfl rfl
  exact ⟨h.1, h.2.1, h.2.2.1 .timeout rfl, h.2.2.2 .timeout rfl⟩

/-- Counterexample to claim C5: the source discards the `Result` of
`std::fs::write("quote_collateral.json", out)`, so a failing export
write does not abort the collateral command — the stdout print
downstream of the write still executes and the process exits zero. -/
theorem claim_c5_counterexample :
    CW5.writeOutcome = .error () ∧
    exitCode (main_collateral CW5 false).2 = 0 ∧
    (command_collateral_quote CW5 false).1 =
      [.readEnvVar "PCCS_URL", .stderrLine "Getting collateral from PCS...",
       .fetchFromPcs [171] 60,
       .writeFile "quote_collateral.json"
         ((debugRender (toExportJson sampleCollateral)).drop 22),
       .stdoutLine (debugRender (toExportJson sampleCollateral))] :=
  ⟨rfl, rfl, rfl⟩

/-- Claim C5 as amended: any failure whose result a command propagates
aborts that command — an erroring command has printed nothing to stdout
and attempted no file write — and the nonzero exit arises only from
`main` returning the accumulated error; the one exception is the
collateral export write, whose outcome the command ignores entirely. -/
theorem claim_c5_amended :
    (∀ (Q : Type) (w : DecodeWorld Q) (hx : Bool) (e : AppError),
      (command_decode_quote w hx).2 = .error e →
        (command_decode_quote w hx).1 = []) ∧
    (∀ (R : Type) (w : VerifyWorld R) (hx : Bool) (e : AppError),
      (command_verify_quote w hx).2 = .error e →
        stdoutLines (command_verify_quote w hx).1 = [] ∧
        writeEvents (command_verify_quote w hx).1 = []) ∧
    (∀ (wc : CollateralWorld) (hx : Bool) (e : AppError),
      (command_collateral_quote wc hx).2 = .error e →
        stdoutLines (command_collateral_quote wc hx).1 = [] ∧
        writeEvents (command_collateral_quote wc hx).1 = []) ∧
    (∀ (wc : CollateralWorld) (hx : Bool) (o o' : Except Unit Unit),
      command_collateral_quote { wc with writeOutcome := o } hx =
        command_collateral_quote { wc with writeOutcome := o' } hx) ∧
    (∀ e : AppError, exitCode (.error e) = 1) ∧ exitCode (.ok ()) = 0 := by
  refine ⟨?_, ?_, ?_, fun wc hx o o' => rfl, fun e => rfl, rfl⟩
  · intro Q w hx e he
    cases hfb : w.fileBytes with
    | error u => simp [command_decode_quote, hfb]
    | ok raw =>
      cases hhd : hex_decode raw hx with
      | error de => simp [command_decode_quote, hfb, hhd]
      | ok q =>
        cases hp : w.parseQuote q with
        | error u => simp [command_decode_quote, hfb, hhd, hp]
        | ok dq =>
          cases hj : w.quoteJson dq with
          | error u => simp [command_decode_quote, hfb, hhd, hp, hj]
          | ok j =>
            simp [command_decode_quote, hfb, hhd, hp, hj] at he
  · intro R w hx e he
    cases hfb : w.fileBytes with
    | error u => simp [command_verify_quote, hfb, stdoutLines, writeEvents]
    | ok raw =>
      cases hhd : hex_decode raw hx with
      | error de => simp [command_verify_quote, hfb, hhd, stdoutLines, writeEvents]
      | ok q =>
        obtain ⟨rest, ht, hc⟩ := command_verify_shape w hx raw q hfb hhd
        rcases hc with ⟨ae, _, hr, _⟩ | ⟨col, _, ⟨_, hr, _⟩ |
            ⟨t, _, ⟨u, _, hr, _⟩ | ⟨rep, _, _, hres⟩⟩⟩
        · subst hr
          rw [ht, List.append_nil]
          exact ⟨stdoutLines_step _ _ _ _, writeEvents_step _ _ _ _⟩
        · subst hr
          rw [ht, List.append_nil]
          exact ⟨stdoutLines_step _ _ _ _, writeEvents_step _ _ _ _⟩
        · subst hr
          rw [ht, List.append_nil]
          exact ⟨stdoutLines_step _ _ _ _, writeEvents_step _ _ _ _⟩
        · rw [hres] at he
          cases he
  · intro wc hx e he
    cases hfb : wc.fileBytes with
    | error u => simp [command_collateral_quote, hfb, stdoutLines, writeEvents]
    | ok raw =>
      cases hhd : hex_decode raw hx with
      | error de => simp [command_collateral_quote, hfb, hhd, stdoutLines, writeEvents]
      | ok q =>
        obtain ⟨rest, ht, hc⟩ := command_collateral_shape wc hx raw q hfb hhd
        rcases hc with ⟨ae, _, hr, _⟩ | ⟨col, _, _, hres⟩
        · subst hr
          rw [ht, List.append_nil]
          exact ⟨stdoutLines_step _ _ _ _, writeEvents_step _ _ _ _⟩
        · rw [hres] at he
          cases he

/-- Witness for the amended C5 at concrete failing worlds (unreadable
file for decode, timed-out retrieval for verify and collateral) and at
a pair of collateral worlds differing only in the write outcome. -/
theorem claim_c5_amended_witness :
    (command_decode_quote WDfail false).1 = [] ∧
    (stdoutLines (command_verify_quote WVfail false).1 = [] ∧
      writeEvents (command_verify_quote WVfail false).1 = []) ∧
    (stdoutLines (command_collateral_quote WCfail false).1 = [] ∧
      writeEvents (command_collateral_quote WCfail false).1 = []) ∧
    command_collateral_quote { WC with writeOutcome := .error () } false =
      command_collateral_quote { WC with writeOutcome := .ok () } false ∧
    exitCode (.error ⟨[], .readFailed⟩) = 1 ∧ exitCode (.ok ()) = 0 := by
  have h := claim_c5_amended
  exact ⟨h.1 Nat WDfail false ⟨["Failed to read quote file"], .readFailed⟩ rfl,
    h.2.1 Nat WVfail false ⟨[], .retrievalFailed .timeout⟩ rfl,
    h.2.2.1 WCfail false ⟨[], .retrievalFailed .timeout⟩ rfl,
    h.2.2.2.1 WC false (.error ()) (.ok ()),
    h.2.2.2.2.1 ⟨[], .readFailed⟩, h.2.2.2.2.2⟩

/-- Claim C6: once the quote, collateral and timestamp are available,
the verify command maps an absent verifier result to the verify error
carrying the `Failed to verify quote` phrase with nothing on stdout,
and on a present result prints exactly the report JSON to stdout
followed by `Quote verified` on the diagnostic stream. -/
theorem claim_c6 {R : Type} (w : VerifyWorld R) (hx : Bool) (raw q : Bytes)
    (t : Nat) (col : QuoteCollateralV3)
    (h1 : w.fileBytes = .ok raw) (h2 : hex_decode raw hx = .ok q)
    (h3 : chosenRetrieval w.env w.pcs w.pccs q = .ok col)
    (h4 : w.now = .ok t) :
    (∀ u, w.verifyFn q col t = .error u →
      (command_verify_quote w hx).2 =
        .error ⟨["Failed to verify quote"], .noVerifyResult⟩ ∧
      stdoutLines (command_verify_quote w hx).1 = []) ∧
    (∀ rep, w.verifyFn q col t = .ok rep →
      (command_verify_quote w hx).2 = .ok () ∧
      stdoutLines (command_verify_quote w hx).1 = [w.reportJson rep] ∧
      ∃ pre, (command_verify_quote w hx).1 =
        pre ++ [.stdoutLine (w.reportJson rep), .stderrLine "Quote verified"]) := by
  obtain ⟨rest, ht, hc⟩ := command_verify_shape w hx raw q h1 h2
  have hst : (getCollateralStep w.env w.pcs w.pccs q).2 = .ok col := by
    rw [getCollateralStep_snd, h3]
    rfl
  rcases hc with ⟨ae, hae, _, _⟩ | ⟨col', hcol, hinner⟩
  · rw [hst] at hae
    cases hae
  rw [hst] at hcol
  injection hcol with hcol
  subst hcol
  rcases hinner with ⟨hn, _, _⟩ | ⟨t', ht', hbr⟩
  · rw [h4] at hn
    cases hn
  rw [h4] at ht'
  injection ht' with ht'
  subst ht'
  rcases hbr with ⟨u, hu, hrest, hres⟩ | ⟨rep, hrep, hrest, hres⟩
  · constructor
    · intro u0 _
      refine ⟨hres, ?_⟩
      subst hrest
      rw [ht, List.append_nil]
      exact stdoutLines_step _ _ _ _
    · intro rep hrep
      rw [hu] at hrep
      cases hrep
  · constructor
    · intro u0 hu0
      rw [hrep] at hu0
      cases hu0
    · intro rep0 hrep0
      rw [hrep] at hrep0
      injection hrep0 with hrep0
      subst hrep0
      refine ⟨hres, ?_, ?_⟩
      · rw [ht, hrest, stdoutLines_append, stdoutLines_step]
        simp [stdoutLines]
      · exact ⟨_, by rw [ht, hrest]⟩

/-- Witness for C6 at the concrete world `WV`, whose verifier returns
report `5`. -/
theorem claim_c6_witness :
    (command_verify_quote WV false).2 = .ok () ∧
    stdoutLines (command_verify_quote WV false).1 = [WV.reportJson 5] ∧
    ∃ pre, (command_verify_quote WV false).1 =
      pre ++ [.stdoutLine (WV.reportJson 5), .stderrLine "Quote verified"] :=
  (claim_c6 WV false [171] [171] 1700000000 sampleCollateral
    rfl rfl rfl rfl).2 5 rfl

/-- Claim C7: on success the collateral command writes to the fixed
filename `quote_collateral.json` in the working directory exactly the
debug rendering of the six-field export record (signatures hex-encoded
as text) with its first 22 characters removed, and prints that debug
rendering on stdout. -/
theorem claim_c7 (wc : CollateralWorld) (hxc : Bool) (rawc qc : Bytes)
    (col : QuoteCollateralV3)
    (h1 : wc.fileBytes = .ok rawc) (h2 : hex_decode rawc hxc = .ok qc)
    (h3 : chosenRetrieval wc.env wc.pcs wc.pccs qc = .ok col) :
    (command_collateral_quote wc hxc).2 = .ok () ∧
    writeEvents (command_collateral_quote wc hxc).1 =
      [.writeFile "quote_collateral.json"
        ((debugRender (toExportJson col)).drop 22)] ∧
    stdoutLines (command_collateral_quote wc hxc).1 =
      [debugRender (toExportJson col)] ∧
    ∃ pre, (command_collateral_quote wc hxc).1 = pre ++
      [.writeFile "quote_collateral.json"
        ((debugRender (toExportJson col)).drop 22),
       .stdoutLine (debugRender (toExportJson col))] := by
  obtain ⟨rest, ht, hc⟩ := command_collateral_shape wc hxc rawc qc h1 h2
  have hst : (getCollateralStep wc.env wc.pcs wc.pccs qc).2 = .ok col := by
    rw [getCollateralStep_snd, h3]
    rfl
  rcases hc with ⟨ae, hae, _, _⟩ | ⟨col', hcol, hrest, hres⟩
  · rw [hst] at hae
    cases hae
  rw [hst] at hcol
  injection hcol with hcol
  subst hcol
  refine ⟨hres, ?_, ?_, ⟨_, by rw [ht, hrest]⟩⟩
  · rw [ht, hrest, writeEvents_append, writeEvents_step]
    simp [writeEvents]
  · rw [ht, hrest, stdoutLines_append, stdoutLines_step]
    simp [stdoutLines]

/-- Witness for C7 at the concrete world `WC` retrieving
`sampleCollateral` from a custom PCCS. -/
theorem claim_c7_witness :
    (command_collateral_quote WC false).2 = .ok () ∧
    writeEvents (command_collateral_quote WC false).1 =
      [.writeFile "quote_collateral.json"
        ((debugRender (toExportJson sampleCollateral)).drop 22)] ∧
    stdoutLines (command_collateral_quote WC false).1 =
      [debugRender (toExportJson sampleCollateral)] ∧
    ∃ pre, (command_collateral_quote WC false).1 = pre ++
      [.writeFile "quote_collateral.json"
        ((debugRender (toExportJson sampleCollateral)).drop 22),
       .stdoutLine (debugRender (toExportJson sampleCollateral))] :=
  claim_c7 WC false [171] [171] sampleCollateral rfl rfl rfl

/-- Counterexample to claim C8: in this run the retrieval step fails,
yet the final error chain holds exactly one context phrase — the
dispatcher's — so the failing retrieval step wrapped its failure with
no context phrase of its own. -/
theorem claim_c8_counterexample :
    (main_verify WVfail false).2 =
      .error ⟨["Failed to verify quote"], .retrievalFailed .timeout⟩ :=
  rfl

/-- Claim C8 as amended: the file-read and hex-decode steps wrap their
failures with step-describing phrases and the wrapped causes chain
outward undiscarded under the dispatcher's phrase; however the retrieval
step adds no context phrase of its own, and the dispatcher wraps the
collateral subcommand's failure with the decode subcommand's phrase
`Failed to decode quote` rather than one describing the collateral
step. -/
theorem claim_c8_amended :
    (∀ (Q : Type) (w : DecodeWorld Q) (hx : Bool),
      w.fileBytes = .error () →
      (main_decode w hx).2 = .error
        ⟨["Failed to decode quote", "Failed to read quote file"], .readFailed⟩) ∧
    (∀ (R : Type) (w : VerifyWorld R) (hx : Bool) (raw : Bytes) (e : DecodeErr),
      w.fileBytes = .ok raw → hex_decode raw hx = .error e →
      (main_verify w hx).2 = .error
        ⟨["Failed to verify quote", "Failed to decode quote file"],
         .hexDecodeFailed e⟩) ∧
    (∀ (R : Type) (w : VerifyWorld R) (hx : Bool) (raw q : Bytes)
        (r : RetrievalErr),
      w.fileBytes = .ok raw → hex_decode raw hx = .ok q →
      chosenRetrieval w.env w.pcs w.pccs q = .error r →
      (main_verify w hx).2 = .error
        ⟨["Failed to verify quote"], .retrievalFailed r⟩) ∧
    (∀ (wc : CollateralWorld) (hx : Bool) (raw q : Bytes) (r : RetrievalErr),
      wc.fileBytes = .ok raw → hex_decode raw hx = .ok q →
      chosenRetrieval wc.env wc.pcs wc.pccs q = .error r →
      (main_collateral wc hx).2 = .error
        ⟨["Failed to decode quote"], .retrievalFailed r⟩) := by
  refine ⟨?_, ?_, ?_, ?_⟩
  · intro Q w hx hfb
    simp [main_decode, command_decode_quote, hfb, Except.mapError, addContext]
  · intro R w hx raw e hfb hhd
    simp [main_verify, command_verify_quote, hfb, hhd, Except.mapError, addContext]
  · intro R w hx raw q r hfb hhd hr
    obtain ⟨rest, ht, hc⟩ := command_verify_shape w hx raw q hfb hhd
    have hst : (getCollateralStep w.env w.pcs w.pccs q).2 =
        .error ⟨[], .retrievalFailed r⟩ := by
      rw [getCollateralStep_snd, hr]
      rfl
    rcases hc with ⟨ae, hae, _, hres⟩ | ⟨col, hcol, _⟩
    · rw [hst] at hae
      injection hae with hae
      subst hae
      simp [main_verify, hres, Except.mapError, addContext]
    · rw [hst] at hcol
      cases hcol
  · intro wc hx raw q r hfb hhd hr
    obtain ⟨rest, ht, hc⟩ := command_collateral_shape wc hx raw q hfb hhd
    have hst : (getCollateralStep wc.env wc.pcs wc.pccs q).2 =
        .error ⟨[], .retrievalFailed r⟩ := by
      rw [getCollateralStep_snd, hr]
      rfl
    rcases hc with ⟨ae, hae, _, hres⟩ | ⟨col, hcol, _⟩
    · rw [hst] at hae
      injection hae with hae
      subst hae
      simp [main_collateral, hres, Except.mapError, addContext]
    · rw [hst] at hcol
      cases hcol

/-- Witness for the amended C8 at concrete worlds exercising all four
conjuncts. -/
theorem claim_c8_amended_witness :
    (main_decode WDfail false).2 = .error
      ⟨["Failed to decode quote", "Failed to read quote file"], .readFailed⟩ ∧
    (main_verify WVbadhex true).2 = .error
      ⟨["Failed to verify quote", "Failed to decode quote file"],
       .hexDecodeFailed .oddLength⟩ ∧
    (main_verify WVfail false).2 = .error
      ⟨["Failed to verify quote"], .retrievalFailed .timeout⟩ ∧
    (main_collateral WCfail false).2 = .error
      ⟨["Failed to decode quote"], .retrievalFailed .timeout⟩ := by
  have h := claim_c8_amended
  exact ⟨h.1 Nat WDfail false rfl,
    h.2.1 Nat WVbadhex true [48, 120, 122] .oddLength rfl rfl,
    h.2.2.1 Nat WVfail false [171] [171] .timeout rfl rfl rfl,
    h.2.2.2 WCfail false [] [] .timeout rfl rfl rfl⟩

/-- Claim C9: a `PCCS_URL` value that is set but not valid Unicode is
treated by both commands exactly like an absent one — the commands
behave identically, the source resolution yields the default public PCS
fetch, and no failure arises from the lookup. -/
theorem claim_c9 {R : Type} (w : VerifyWorld R) (wc : CollateralWorld)
    (hx hxc : Bool) :
    command_verify_quote { w with env := .notUnicode } hx =
      command_verify_quote { w with env := .notPresent } hx ∧
    command_collateral_quote { wc with env := .notUnicode } hxc =
      command_collateral_quote { wc with env := .notPresent } hxc ∧
    envVarOrDefault .notUnicode = "" ∧
    (∀ q : Bytes, chosenFetch .notUnicode q = .fetchFromPcs q 60) :=
  ⟨rfl, rfl, rfl, fun _ => rfl⟩

end DcapQvl
